import Mathlib

/-!
Verification of the Vulkan submission context of
`aten/src/ATen/native/vulkan/api/Context.h`.

The C++ class `Context` is modelled as a pure state record; each member
function becomes a state-transition function.  Mutex acquisitions, queue
submissions and released GPU memory are recorded in history ("ghost")
fields or returned as observations, so that theorems can speak about them.
`uint32_t` arithmetic is modelled as `Nat` with an explicit reduction
modulo `2 ^ 32` where an increment could overflow.  Members whose bodies
live outside `Context.h` (in `Context.cpp`, `Utils.h`, `Resource.h`) are
modelled from the spec; their doc comments say so.
-/

namespace Vulkan

/-- A `VkFence` handle; `none` models `VK_NULL_HANDLE`. -/
abbrev VkFence := Option Nat

/-- Reduction modulo `2 ^ 32`: the wrap-around of `uint32_t` arithmetic. -/
def uint32 (n : Nat) : Nat := n % 2 ^ 32

/-- `utils::uvec3`: three `uint32_t` lanes, `data[0]`, `data[1]`, `data[2]`. -/
structure uvec3 where
  x : Nat
  y : Nat
  z : Nat
  deriving DecidableEq, Repr

/-- A `VulkanBuffer` (defined in `Resource.h`, outside the given sources);
only the owned `VkBuffer` handle matters here.  Modelled from the spec: a
wrapper "exclusively owns one GPU buffer handle"; handle `0` is the null
handle, which is what a moved-from buffer holds and what the
`if (vulkan_buffer_)` guard tests against. -/
structure VulkanBuffer where
  handle : Nat
  deriving DecidableEq, Repr

/-- The `operator bool` of `VulkanBuffer`: the handle is non-null. -/
def VulkanBuffer.isValid (b : VulkanBuffer) : Bool := b.handle != 0

/-- A `VulkanImage` (defined in `Resource.h`, outside the given sources);
only the owned handle matters here. -/
structure VulkanImage where
  handle : Nat
  deriving DecidableEq, Repr

/-- A bindable argument forwarded to `detail::bind` (buffers, images and
uniform parameter buffers all bind through `DescriptorSet::bind`). -/
inductive BindArg where
  | buf : VulkanBuffer → BindArg
  | img : VulkanImage → BindArg
  deriving DecidableEq, Repr

/-- A `DescriptorSet` (defined in `Descriptor.h`, outside the given
sources), modelled as the trace of `bind` calls made on it:
`descriptor_set.bind(slot, resource)` is recorded as the pair
`(slot, resource)`, in call order. -/
structure DescriptorSet where
  binds : List (Nat × BindArg)
  deriving DecidableEq, Repr

/-- `DescriptorSet::bind`: record the call. -/
def DescriptorSet.bind (descriptor_set : DescriptorSet) (slot : Nat)
    (a : BindArg) : DescriptorSet :=
  ⟨descriptor_set.binds ++ [(slot, a)]⟩

/-- The slice of `ShaderSource` (defined in `Shader.h`, outside the given
sources) that `Context::submit_compute_job` reads: the kernel name and the
declared output tile size. -/
structure ShaderSource where
  kernel_name : String
  out_tile_size : uvec3
  deriving DecidableEq, Repr

/-- Modelled from the spec: `utils::div_up` (declared in `Utils.h`, outside
the given sources) is ceiling division, "dividing the requested extent in
each of the three dimensions by the shader's declared output-tile size,
rounding up". -/
def div_up (x y : Nat) : Nat := (x + y - 1) / y

/-- Ceiling division exactly as the spec words it, `ceil(extent / tile)`:
the quotient, plus one when the division is not exact.  Stated
independently of `div_up` so that the two can be compared. -/
def spec_ceil (extent tile : Nat) : Nat :=
  extent / tile + (if extent % tile = 0 then 0 else 1)

/-- The effective global work-group size computed inside
`Context::submit_compute_job`: per axis, `utils::div_up` of the requested
extent by the shader's declared output tile size. -/
def effective_global_wg (shader : ShaderSource)
    (global_work_group : uvec3) : uvec3 :=
  ⟨div_up global_work_group.x shader.out_tile_size.x,
    div_up global_work_group.y shader.out_tile_size.y,
    div_up global_work_group.z shader.out_tile_size.z⟩

/-- The kind of a `record_copy` template argument: `VulkanBuffer`,
`VulkanImage`, or any other C++ type (one for which only the deleted
primary template could match). -/
inductive ResourceKind where
  | buffer
  | image
  | other
  deriving DecidableEq, Repr

/-- Which `CommandBuffer` copy routine a `record_copy` specialization
calls. -/
inductive CopyCmd where
  | copy_buffer_to_buffer
  | copy_texture_to_texture
  | copy_texture_to_buffer
  | copy_buffer_to_texture
  deriving DecidableEq, Repr

/-- `record_copy`: the primary template is `= delete`, so instantiating it
at any pair of kinds outside the four explicit specializations is a
compile-time error, modelled as `none`; each specialization records the
corresponding `CommandBuffer` copy call. -/
def record_copy : ResourceKind → ResourceKind → Option CopyCmd
  | ResourceKind.buffer, ResourceKind.buffer =>
      some CopyCmd.copy_buffer_to_buffer
  | ResourceKind.image, ResourceKind.image =>
      some CopyCmd.copy_texture_to_texture
  | ResourceKind.image, ResourceKind.buffer =>
      some CopyCmd.copy_texture_to_buffer
  | ResourceKind.buffer, ResourceKind.image =>
      some CopyCmd.copy_buffer_to_texture
  | _, _ => none

/-- An operation recorded into the shared command buffer. -/
inductive RecordedOp where
  | insert_barrier
  | copy : CopyCmd → RecordedOp
  | dispatch : List (Nat × BindArg) → uvec3 → uvec3 → RecordedOp
  deriving DecidableEq, Repr

/-- Which of the context's mutexes an operation acquires. -/
inductive LockEvent where
  | cmd_mutex
  | buffer_clearlist_mutex
  | image_clearlist_mutex
  deriving DecidableEq, Repr

/-- The slice of `ContextConfig` the modelled code reads (the pool
configurations only parameterize external collaborators). -/
structure ContextConfig where
  cmdSubmitFrequency : Nat
  deriving DecidableEq, Repr

/-- The mutable state of the C++ `Context`, plus history ("ghost") fields
used only to observe behaviour: `submissions` records every batch handed to
the GPU queue together with its fence, and `freed_buffers` / `freed_images`
record GPU memory actually released, which only draining the cleanup queues
does.  `cmd_` is `none` when no command buffer is open and otherwise holds
the operations recorded into the open buffer. -/
structure Context where
  config_ : ContextConfig
  cmd_ : Option (List RecordedOp)
  submit_count_ : Nat
  buffers_to_clear_ : List VulkanBuffer
  images_to_clear_ : List VulkanImage
  submissions : List (List RecordedOp × VkFence)
  freed_buffers : List VulkanBuffer
  freed_images : List VulkanImage
  deriving DecidableEq, Repr

/-- `Context::register_buffer_cleanup`: append the buffer (taken by move)
to `buffers_to_clear_` while holding `buffer_clearlist_mutex_`.  Returns
the new state and the list of mutexes acquired. -/
def Context.register_buffer_cleanup (s : Context) (buffer : VulkanBuffer) :
    Context × List LockEvent :=
  ({ s with buffers_to_clear_ := s.buffers_to_clear_ ++ [buffer] },
    [LockEvent.buffer_clearlist_mutex])

/-- `Context::register_image_cleanup`: append the image (taken by move) to
`images_to_clear_` while holding `image_clearlist_mutex_`.  Returns the new
state and the list of mutexes acquired. -/
def Context.register_image_cleanup (s : Context) (image : VulkanImage) :
    Context × List LockEvent :=
  ({ s with images_to_clear_ := s.images_to_clear_ ++ [image] },
    [LockEvent.image_clearlist_mutex])

/-- `Context::set_cmd`: if no command buffer is open (`!cmd_`, the
`operator bool` of `CommandBuffer` being false), get a new one from the
pool and begin recording (an empty recording); otherwise do nothing. -/
def Context.set_cmd (s : Context) : Context :=
  if s.cmd_.isSome then s else { s with cmd_ := some [] }

/-- Modelled from the spec: the body of `Context::submit_cmd_to_gpu` lives
in `Context.cpp`, outside the given sources; per the spec it "ends
recording, hands the command buffer to the queue together with an optional
fence, resets the counter to zero, and marks the context ready to open a
new command buffer on next use". -/
def Context.submit_cmd_to_gpu (s : Context) (fence_handle : VkFence) :
    Context :=
  { s with
    cmd_ := none
    submit_count_ := 0
    submissions := s.submissions ++ [(s.cmd_.getD [], fence_handle)] }

/-- Append operations to the open command buffer (recording calls such as
`cmd_.insert_barrier(...)` and the copy / dispatch encodings that the
external `CommandBuffer` collaborator performs). -/
def Context.record (s : Context) (ops : List RecordedOp) : Context :=
  { s with cmd_ := s.cmd_.map (fun l => l ++ ops) }

/-- The result of one dispatch call: the new context state, the mutexes the
call itself acquired, and whether the batched command buffer was submitted
to the GPU queue. -/
structure SubmitResult where
  state : Context
  locks : List LockEvent
  submitted : Bool
  deriving DecidableEq, Repr

/-- The common tail of `submit_copy` and `submit_compute_job`:
`submit_count_++` (a `uint32_t` increment) followed by the submission
policy `fence_handle != VK_NULL_HANDLE || submit_count_ >=
config_.cmdSubmitFrequency`, which submits the batched command buffer. -/
def Context.count_and_maybe_submit (s : Context) (fence_handle : VkFence) :
    Context × Bool :=
  let s1 := { s with submit_count_ := uint32 (s.submit_count_ + 1) }
  if fence_handle.isSome || decide
      (s1.config_.cmdSubmitFrequency ≤ s1.submit_count_) then
    (s1.submit_cmd_to_gpu fence_handle, true)
  else
    (s1, false)

/-- `Context::submit_copy<S, D>`: instantiable only at the four
`record_copy` specializations (`none` models the compile error of the
deleted primary template).  Acquires `cmd_mutex_` exactly when no fence is
supplied, opens the command buffer if needed, inserts the pipeline barrier,
records the copy, then increments the counter and applies the submission
policy. -/
def Context.submit_copy (s : Context) (src dst : ResourceKind)
    (fence_handle : VkFence) : Option SubmitResult :=
  (record_copy src dst).map fun c =>
    let locks := if fence_handle.isNone then [LockEvent.cmd_mutex] else []
    let s1 := s.set_cmd
    let s2 := s1.record [RecordedOp.insert_barrier, RecordedOp.copy c]
    let t := s2.count_and_maybe_submit fence_handle
    ⟨t.1, locks, t.2⟩

namespace detail

/-- The unfolding of the fold expression inside `detail::bind`: with
indices `i, i + 1, ...` paired positionally with the remaining arguments,
call `descriptor_set.bind(index, argument)` once per argument, left to
right. -/
def bindFrom (descriptor_set : DescriptorSet) (i : Nat) :
    List BindArg → DescriptorSet
  | [] => descriptor_set
  | a :: rest => bindFrom (descriptor_set.bind i a) (i + 1) rest

/-- `detail::bind`: invoked with `std::index_sequence_for<Arguments...>`,
that is with indices `0, 1, ..., n - 1` for the `n` arguments, in order. -/
def bind (descriptor_set : DescriptorSet) (arguments : List BindArg) :
    DescriptorSet :=
  bindFrom descriptor_set 0 arguments

end detail

/-- `Context::submit_compute_job`: acquires `cmd_mutex_` exactly when no
fence is supplied, opens the command buffer if needed, obtains a fresh
descriptor set (`submit_compute_prologue`) and binds every argument in
order via `detail::bind`, computes the effective global work-group size,
records the pipeline barrier and the dispatch with the effective extent and
the given local size (`submit_compute_epilogue`, per the spec), then
increments the counter and applies the submission policy. -/
def Context.submit_compute_job (s : Context) (shader : ShaderSource)
    (global_work_group local_work_group_size : uvec3)
    (fence_handle : VkFence) (arguments : List BindArg) : SubmitResult :=
  let locks := if fence_handle.isNone then [LockEvent.cmd_mutex] else []
  let s1 := s.set_cmd
  let descriptor_set := detail.bind ⟨[]⟩ arguments
  let eff := effective_global_wg shader global_work_group
  let s2 := s1.record
    [RecordedOp.insert_barrier,
      RecordedOp.dispatch descriptor_set.binds eff local_work_group_size]
  let t := s2.count_and_maybe_submit fence_handle
  ⟨t.1, locks, t.2⟩

/-- Modelled from the spec: the body of `Context::flush` lives in
`Context.cpp`, outside the given sources; per the spec it "forces a
submission of any pending work unconditionally", "followed by draining both
cleanup queues", and draining "empties the queue and releases every
resource's underlying GPU memory". -/
def Context.flush (s : Context) : Context :=
  let s1 := if s.cmd_.isSome then s.submit_cmd_to_gpu none else s
  { s1 with
    buffers_to_clear_ := []
    images_to_clear_ := []
    freed_buffers := s1.freed_buffers ++ s1.buffers_to_clear_
    freed_images := s1.freed_images ++ s1.images_to_clear_ }

/-- All operations ever recorded through the context, in order: every
submitted batch followed by the currently open command buffer. -/
def Context.allOps (s : Context) : List RecordedOp :=
  (s.submissions.map Prod.fst).flatten ++ s.cmd_.getD []

/-- `UniformParamsBuffer`: owns one `VulkanBuffer` (and a back-pointer to
its context, made explicit here as the state its destructor runs against).
Copying is deleted; moving is defaulted. -/
structure UniformParamsBuffer where
  vulkan_buffer_ : VulkanBuffer
  deriving DecidableEq, Repr

/-- `UniformParamsBuffer::~UniformParamsBuffer`: only when
`vulkan_buffer_` still holds a valid (non-null) buffer does it register the
buffer for deferred cleanup with the owning context; it never frees GPU
memory itself. -/
def UniformParamsBuffer.destructor (u : UniformParamsBuffer) (s : Context) :
    Context :=
  if u.vulkan_buffer_.isValid then
    (s.register_buffer_cleanup u.vulkan_buffer_).1
  else
    s

/-- Modelled from the spec: the defaulted move constructor of
`UniformParamsBuffer` moves the `VulkanBuffer` member (`Resource.h`,
outside the given sources), transferring the handle and leaving the
moved-from wrapper with the null handle.  Returns the pair (moved-from
wrapper, destination wrapper). -/
def UniformParamsBuffer.moveFrom (u : UniformParamsBuffer) :
    UniformParamsBuffer × UniformParamsBuffer :=
  (⟨⟨0⟩⟩, ⟨u.vulkan_buffer_⟩)

/-- The wrappers alive after moving out of `u` through a chain of `n`
moves: the moved-from husks first, the final live holder last. -/
def UniformParamsBuffer.moveChain :
    Nat → UniformParamsBuffer → List UniformParamsBuffer
  | 0, u => [u]
  | n + 1, u =>
      (u.moveFrom).1 :: UniformParamsBuffer.moveChain n (u.moveFrom).2

/-- Run the `UniformParamsBuffer` destructor on every wrapper in the list,
in order. -/
def destroyAll (l : List UniformParamsBuffer) (s : Context) : Context :=
  l.foldl (fun st u => u.destructor st) s

/-- `StorageBuffer`: owns one `VulkanBuffer`; neither copyable nor
movable. -/
structure StorageBuffer where
  vulkan_buffer_ : VulkanBuffer
  deriving DecidableEq, Repr

/-- `StorageBuffer::~StorageBuffer`: unconditionally registers the buffer
for deferred cleanup; it never frees GPU memory itself. -/
def StorageBuffer.destructor (b : StorageBuffer) (s : Context) : Context :=
  (s.register_buffer_cleanup b.vulkan_buffer_).1

/-- One `submit_copy` step, buffer to buffer, without a fence (the legal
instantiation is `some`, so the `none` fallback is never taken). -/
def copyStep (s : Context) : Context :=
  match s.submit_copy ResourceKind.buffer ResourceKind.buffer none with
  | some r => r.state
  | none => s

/-- `n` back-to-back fence-less `submit_copy` calls. -/
def Context.runCopies : Context → Nat → Context
  | s, 0 => s
  | s, n + 1 => (copyStep s).runCopies n

/-- A freshly constructed context: the constructor (in `Context.cpp`)
starts with no open command buffer, a zero submission counter and empty
cleanup queues; `freq` is `config_.cmdSubmitFrequency`. -/
def freshContext (freq : Nat) : Context :=
  { config_ := ⟨freq⟩
    cmd_ := none
    submit_count_ := 0
    buffers_to_clear_ := []
    images_to_clear_ := []
    submissions := []
    freed_buffers := []
    freed_images := [] }

/-!  Helper lemmas (not tied to a single claim). -/

theorem set_cmd_config (s : Context) : s.set_cmd.config_ = s.config_ := by
  unfold Context.set_cmd
  split <;> rfl

theorem set_cmd_submit_count (s : Context) :
    s.set_cmd.submit_count_ = s.submit_count_ := by
  unfold Context.set_cmd
  split <;> rfl

theorem set_cmd_submissions (s : Context) :
    s.set_cmd.submissions = s.submissions := by
  unfold Context.set_cmd
  split <;> rfl

theorem set_cmd_isSome (s : Context) : s.set_cmd.cmd_.isSome = true := by
  unfold Context.set_cmd
  split <;> simp_all

theorem div_up_eq_spec_ceil (x t : Nat) (h : 0 < t) :
    div_up x t = spec_ceil x t := by
  obtain ⟨q, r, hr, rfl⟩ : ∃ q r, r < t ∧ x = t * q + r :=
    ⟨x / t, x % t, Nat.mod_lt _ h, (Nat.div_add_mod x t).symm⟩
  have hdiv : (t * q + r) / t = q := by
    rw [Nat.mul_add_div h, Nat.div_eq_of_lt hr, Nat.add_zero]
  have hmod : (t * q + r) % t = r := by
    rw [Nat.mul_add_mod, Nat.mod_eq_of_lt hr]
  unfold div_up spec_ceil
  rw [hdiv, hmod]
  rcases Nat.eq_zero_or_pos r with h0 | hpos
  · subst h0
    rw [if_pos rfl]
    have e : t * q + 0 + t - 1 = t * q + (t - 1) := by omega
    rw [e, Nat.mul_add_div h, Nat.div_eq_of_lt (by omega)]
  · rw [if_neg (by omega)]
    have e : t * q + r + t - 1 = t * (q + 1) + (r - 1) := by
      rw [Nat.mul_succ]
      omega
    rw [e, Nat.mul_add_div h, Nat.div_eq_of_lt (by omega)]

theorem allOps_set_cmd (s : Context) : s.set_cmd.allOps = s.allOps := by
  cases h : s.cmd_ <;> simp [Context.set_cmd, Context.allOps, h]

theorem allOps_submit_cmd_to_gpu (s : Context) (f : VkFence) :
    (s.submit_cmd_to_gpu f).allOps = s.allOps := by
  simp [Context.submit_cmd_to_gpu, Context.allOps]

theorem allOps_record (s : Context) (ops : List RecordedOp)
    (h : s.cmd_.isSome = true) :
    (s.record ops).allOps = s.allOps ++ ops := by
  obtain ⟨l, hl⟩ := Option.isSome_iff_exists.mp h
  simp [Context.record, Context.allOps, hl, List.append_assoc]

theorem count_and_maybe_submit_eq (s : Context) (f : VkFence) :
    s.count_and_maybe_submit f =
      (if f.isSome || decide
          (s.config_.cmdSubmitFrequency ≤ uint32 (s.submit_count_ + 1)) then
        (Context.submit_cmd_to_gpu
          { s with submit_count_ := uint32 (s.submit_count_ + 1) } f, true)
      else
        ({ s with submit_count_ := uint32 (s.submit_count_ + 1) }, false)) :=
  rfl

theorem allOps_count_and_maybe_submit (s : Context) (f : VkFence) :
    (s.count_and_maybe_submit f).1.allOps = s.allOps := by
  rw [count_and_maybe_submit_eq]
  split
  · rw [allOps_submit_cmd_to_gpu]
    simp [Context.allOps]
  · simp [Context.allOps]

theorem count_and_maybe_submit_snd (s : Context) (f : VkFence) :
    (s.count_and_maybe_submit f).2 =
      (f.isSome || decide
        (s.config_.cmdSubmitFrequency ≤ uint32 (s.submit_count_ + 1))) := by
  rw [count_and_maybe_submit_eq]
  split <;> simp_all

theorem bindFrom_binds (args : List BindArg) :
    ∀ (descriptor_set : DescriptorSet) (i : Nat),
      (detail.bindFrom descriptor_set i args).binds =
        descriptor_set.binds ++ args.enumFrom i := by
  induction args with
  | nil =>
      intro descriptor_set i
      simp [detail.bindFrom, List.enumFrom]
  | cons a rest ih =>
      intro descriptor_set i
      simp [detail.bindFrom, DescriptorSet.bind, ih, List.enumFrom]

theorem record_config (s : Context) (ops : List RecordedOp) :
    (s.record ops).config_ = s.config_ := rfl

theorem record_submit_count (s : Context) (ops : List RecordedOp) :
    (s.record ops).submit_count_ = s.submit_count_ := rfl

theorem record_submissions (s : Context) (ops : List RecordedOp) :
    (s.record ops).submissions = s.submissions := rfl

theorem tail_submitted (s : Context) (ops : List RecordedOp)
    (fence : VkFence) :
    ((s.set_cmd.record ops).count_and_maybe_submit fence).2 =
      (fence.isSome || decide
        (s.config_.cmdSubmitFrequency ≤ uint32 (s.submit_count_ + 1))) := by
  have e1 : (s.set_cmd.record ops).config_ = s.config_ := by
    rw [record_config, set_cmd_config]
  have e2 : (s.set_cmd.record ops).submit_count_ = s.submit_count_ := by
    rw [record_submit_count, set_cmd_submit_count]
  rw [count_and_maybe_submit_snd, e1, e2]

theorem tail_deferred (s : Context) (ops : List RecordedOp) (fence : VkFence)
    (h : ((s.set_cmd.record ops).count_and_maybe_submit fence).2 = false) :
    ((s.set_cmd.record ops).count_and_maybe_submit fence).1.submissions =
        s.submissions ∧
    ((s.set_cmd.record ops).count_and_maybe_submit
        fence).1.cmd_.isSome = true := by
  have hb := (count_and_maybe_submit_snd (s.set_cmd.record ops)
    fence).symm.trans h
  rw [count_and_maybe_submit_eq, if_neg (by simp [hb])]
  constructor
  · rw [record_submissions, set_cmd_submissions]
  · obtain ⟨l, hl⟩ := Option.isSome_iff_exists.mp (set_cmd_isSome s)
    simp [Context.record, hl]

theorem tail_fields_submit (s : Context) (ops : List RecordedOp)
    (fence : VkFence)
    (hc : fence.isSome = true ∨
      s.config_.cmdSubmitFrequency ≤ uint32 (s.submit_count_ + 1)) :
    ((s.set_cmd.record ops).count_and_maybe_submit fence).1.config_ =
        s.config_ ∧
    ((s.set_cmd.record ops).count_and_maybe_submit
        fence).1.submit_count_ = 0 ∧
    ((s.set_cmd.record ops).count_and_maybe_submit
        fence).1.submissions.length = s.submissions.length + 1 := by
  have e1 : (s.set_cmd.record ops).config_ = s.config_ := by
    rw [record_config, set_cmd_config]
  have e2 : (s.set_cmd.record ops).submit_count_ = s.submit_count_ := by
    rw [record_submit_count, set_cmd_submit_count]
  have hb : (fence.isSome || decide
      ((s.set_cmd.record ops).config_.cmdSubmitFrequency ≤
        uint32 ((s.set_cmd.record ops).submit_count_ + 1))) = true := by
    rw [e1, e2]
    rcases hc with hc | hc <;> simp [hc]
  rw [count_and_maybe_submit_eq, if_pos hb]
  refine ⟨?_, rfl, ?_⟩
  · simp [Context.submit_cmd_to_gpu, Context.record, set_cmd_config]
  · simp [Context.submit_cmd_to_gpu, Context.record, set_cmd_submissions]

theorem tail_fields_defer (s : Context) (ops : List RecordedOp)
    (hc : ¬ s.config_.cmdSubmitFrequency ≤ uint32 (s.submit_count_ + 1)) :
    ((s.set_cmd.record ops).count_and_maybe_submit
        (none : VkFence)).1.config_ = s.config_ ∧
    ((s.set_cmd.record ops).count_and_maybe_submit
        (none : VkFence)).1.submit_count_ = uint32 (s.submit_count_ + 1) ∧
    ((s.set_cmd.record ops).count_and_maybe_submit
        (none : VkFence)).1.submissions.length = s.submissions.length := by
  have e1 : (s.set_cmd.record ops).config_ = s.config_ := by
    rw [record_config, set_cmd_config]
  have e2 : (s.set_cmd.record ops).submit_count_ = s.submit_count_ := by
    rw [record_submit_count, set_cmd_submit_count]
  have hb : (Option.isSome (none : VkFence) || decide
      ((s.set_cmd.record ops).config_.cmdSubmitFrequency ≤
        uint32 ((s.set_cmd.record ops).submit_count_ + 1))) = false := by
    rw [e1, e2]
    simp [hc]
  rw [count_and_maybe_submit_eq, if_neg (by rw [hb]; simp)]
  refine ⟨?_, ?_, ?_⟩
  · rw [record_config, set_cmd_config]
  · show uint32 ((s.set_cmd.record ops).submit_count_ + 1) = _
    rw [e2]
  · rw [record_submissions, set_cmd_submissions]

theorem copyStep_eq (s : Context) :
    copyStep s =
      ((s.set_cmd.record
          [RecordedOp.insert_barrier,
            RecordedOp.copy
              CopyCmd.copy_buffer_to_buffer]).count_and_maybe_submit
        (none : VkFence)).1 := rfl

theorem copyStep_char (s : Context) :
    (copyStep s).config_ = s.config_ ∧
    (if s.config_.cmdSubmitFrequency ≤ uint32 (s.submit_count_ + 1) then
        (copyStep s).submit_count_ = 0 ∧
        (copyStep s).submissions.length = s.submissions.length + 1
      else
        (copyStep s).submit_count_ = uint32 (s.submit_count_ + 1) ∧
        (copyStep s).submissions.length = s.submissions.length) := by
  by_cases hc : s.config_.cmdSubmitFrequency ≤ uint32 (s.submit_count_ + 1)
  · obtain ⟨h1, h2, h3⟩ := tail_fields_submit s
      [RecordedOp.insert_barrier,
        RecordedOp.copy CopyCmd.copy_buffer_to_buffer]
      (none : VkFence) (Or.inr hc)
    rw [copyStep_eq, if_pos hc]
    exact ⟨h1, h2, h3⟩
  · obtain ⟨h1, h2, h3⟩ := tail_fields_defer s
      [RecordedOp.insert_barrier,
        RecordedOp.copy CopyCmd.copy_buffer_to_buffer] hc
    rw [copyStep_eq, if_neg hc]
    exact ⟨h1, h2, h3⟩

theorem runCopies_spec (n : Nat) :
    ∀ s : Context,
      0 < s.config_.cmdSubmitFrequency →
      s.config_.cmdSubmitFrequency < 2 ^ 32 →
      s.submit_count_ < s.config_.cmdSubmitFrequency →
      (s.runCopies n).submissions.length =
          s.submissions.length +
            (s.submit_count_ + n) / s.config_.cmdSubmitFrequency ∧
      (s.runCopies n).submit_count_ =
          (s.submit_count_ + n) % s.config_.cmdSubmitFrequency := by
  induction n with
  | zero =>
      intro s h1 h2 h3
      refine ⟨?_, ?_⟩
      · show s.submissions.length = _
        rw [Nat.add_zero, Nat.div_eq_of_lt h3, Nat.add_zero]
      · show s.submit_count_ = _
        rw [Nat.add_zero, Nat.mod_eq_of_lt h3]
  | succ n ih =>
      intro s h1 h2 h3
      have hmodid : uint32 (s.submit_count_ + 1) = s.submit_count_ + 1 := by
        unfold uint32
        exact Nat.mod_eq_of_lt (by omega)
      obtain ⟨hcfg, hif⟩ := copyStep_char s
      by_cases hc : s.config_.cmdSubmitFrequency ≤ uint32 (s.submit_count_ + 1)
      · rw [if_pos hc] at hif
        obtain ⟨hcnt, hlen⟩ := hif
        have hc2 : s.config_.cmdSubmitFrequency ≤ s.submit_count_ + 1 := by
          rw [hmodid] at hc
          exact hc
        obtain ⟨ihl, ihm⟩ := ih (copyStep s)
          (by rw [hcfg]; exact h1) (by rw [hcfg]; exact h2)
          (by rw [hcnt, hcfg]; exact h1)
        rw [hcfg, hcnt, hlen, Nat.zero_add] at ihl
        rw [hcfg, hcnt, Nat.zero_add] at ihm
        have e : s.submit_count_ + (n + 1) =
            n + s.config_.cmdSubmitFrequency := by omega
        refine ⟨?_, ?_⟩
        · rw [show s.runCopies (n + 1) = (copyStep s).runCopies n from rfl,
            ihl, e, Nat.add_div_right _ h1, Nat.add_assoc,
            Nat.add_comm 1 (n / s.config_.cmdSubmitFrequency)]
        · rw [show s.runCopies (n + 1) = (copyStep s).runCopies n from rfl,
            ihm, e, Nat.add_mod_right]
      · rw [if_neg hc] at hif
        obtain ⟨hcnt, hlen⟩ := hif
        have hc2 : s.submit_count_ + 1 < s.config_.cmdSubmitFrequency := by
          rw [hmodid] at hc
          omega
        obtain ⟨ihl, ihm⟩ := ih (copyStep s)
          (by rw [hcfg]; exact h1) (by rw [hcfg]; exact h2)
          (by rw [hcnt, hcfg, hmodid]; exact hc2)
        rw [hcfg, hcnt, hlen, hmodid] at ihl
        rw [hcfg, hcnt, hmodid] at ihm
        have e : s.submit_count_ + 1 + n = s.submit_count_ + (n + 1) := by
          omega
        refine ⟨?_, ?_⟩
        · rw [show s.runCopies (n + 1) = (copyStep s).runCopies n from rfl,
            ihl, e]
        · rw [show s.runCopies (n + 1) = (copyStep s).runCopies n from rfl,
            ihm, e]

theorem moveFrom_snd (u : UniformParamsBuffer) : (u.moveFrom).2 = u := rfl

theorem destructor_husk (s : Context) :
    UniformParamsBuffer.destructor ⟨⟨0⟩⟩ s = s := rfl

theorem moveChain_eq (n : Nat) :
    ∀ u : UniformParamsBuffer,
      UniformParamsBuffer.moveChain n u =
        List.replicate n ⟨⟨0⟩⟩ ++ [u] := by
  induction n with
  | zero =>
      intro u
      rfl
  | succ n ih =>
      intro u
      show (⟨⟨0⟩⟩ : UniformParamsBuffer) ::
          UniformParamsBuffer.moveChain n (u.moveFrom).2 = _
      rw [moveFrom_snd, ih]
      rfl

theorem destroyAll_husks (n : Nat) :
    ∀ s : Context, destroyAll (List.replicate n ⟨⟨0⟩⟩) s = s := by
  induction n with
  | zero =>
      intro s
      rfl
  | succ n ih =>
      intro s
      show destroyAll (List.replicate n ⟨⟨0⟩⟩)
          (UniformParamsBuffer.destructor ⟨⟨0⟩⟩ s) = s
      rw [destructor_husk]
      exact ih s

/-!  The claims. -/

/-- C2: for every call to `submit_compute_job` (which calls `detail::bind`
on a fresh descriptor set with `std::index_sequence_for<Arguments...>`),
the k-th argument passed is bound to descriptor binding slot k: the trace
of recorded bind calls is exactly the argument list paired with the indices
0, 1, 2, ..., in argument order, with no reordering or name-based
matching. -/
theorem detail_bind_positional (arguments : List BindArg) :
    (detail.bind ⟨[]⟩ arguments).binds = arguments.enum := by
  unfold detail.bind
  rw [bindFrom_binds]
  simp [List.enum]

/-- C5: `submit_copy` is instantiable at exactly the four kind combinations
buffer→buffer, image→image, image→buffer and buffer→image; for any other
pair of kinds `record_copy`'s deleted primary template makes the call
unrepresentable (modelled as `none`), a compile-time rather than runtime
rejection. -/
theorem submit_copy_exactly_four_kinds (s : Context)
    (src dst : ResourceKind) (fence : VkFence) :
    ((s.submit_copy src dst fence).isSome = true ↔
      ((src = ResourceKind.buffer ∧ dst = ResourceKind.buffer) ∨
        (src = ResourceKind.image ∧ dst = ResourceKind.image) ∨
        (src = ResourceKind.image ∧ dst = ResourceKind.buffer) ∨
        (src = ResourceKind.buffer ∧ dst = ResourceKind.image))) ∧
    (s.submit_copy src dst fence).isSome = (record_copy src dst).isSome := by
  have hiso : (s.submit_copy src dst fence).isSome =
      (record_copy src dst).isSome := by
    unfold Context.submit_copy
    cases h : record_copy src dst <;> simp [h]
  refine ⟨?_, hiso⟩
  rw [hiso]
  cases src <;> cases dst <;> simp [record_copy]

/-- C8: `register_buffer_cleanup` appends the moved-in buffer to the buffer
cleanup queue while holding only the buffer clear-list mutex, leaving the
image cleanup queue and all released GPU memory unchanged;
`register_image_cleanup` does the same for its own queue under its own
mutex, leaving the buffer queue unchanged. -/
theorem register_cleanup_isolated (s : Context) (buffer : VulkanBuffer)
    (image : VulkanImage) :
    (s.register_buffer_cleanup buffer).1.buffers_to_clear_ =
        s.buffers_to_clear_ ++ [buffer] ∧
    (s.register_buffer_cleanup buffer).1.images_to_clear_ =
        s.images_to_clear_ ∧
    (s.register_buffer_cleanup buffer).1.freed_buffers = s.freed_buffers ∧
    (s.register_buffer_cleanup buffer).1.freed_images = s.freed_images ∧
    (s.register_buffer_cleanup buffer).2 =
        [LockEvent.buffer_clearlist_mutex] ∧
    (s.register_image_cleanup image).1.images_to_clear_ =
        s.images_to_clear_ ++ [image] ∧
    (s.register_image_cleanup image).1.buffers_to_clear_ =
        s.buffers_to_clear_ ∧
    (s.register_image_cleanup image).1.freed_buffers = s.freed_buffers ∧
    (s.register_image_cleanup image).1.freed_images = s.freed_images ∧
    (s.register_image_cleanup image).2 =
        [LockEvent.image_clearlist_mutex] :=
  ⟨rfl, rfl, rfl, rfl, rfl, rfl, rfl, rfl, rfl, rfl⟩

/-- C9: `set_cmd` is idempotent: when no command buffer is open it acquires
a new one and begins recording; when one is already open it changes
nothing, so the context holds at most one open command buffer at any
time. -/
theorem set_cmd_idempotent (s : Context) :
    s.set_cmd.set_cmd = s.set_cmd ∧
    s.set_cmd.cmd_.isSome = true ∧
    (s.cmd_ = none → s.set_cmd = { s with cmd_ := some [] }) ∧
    (s.cmd_.isSome = true → s.set_cmd = s) := by
  refine ⟨?_, set_cmd_isSome s, ?_, ?_⟩
  · cases h : s.cmd_ <;> simp [Context.set_cmd, h]
  · intro h
    simp [Context.set_cmd, h]
  · intro h
    simp [Context.set_cmd, h]

/-- Witness for C9 at a concrete context: opening twice equals opening
once, and opening from the fresh (closed) state begins an empty
recording. -/
theorem set_cmd_idempotent_witness :
    (freshContext 1).set_cmd.set_cmd = (freshContext 1).set_cmd ∧
    (freshContext 1).set_cmd = { freshContext 1 with cmd_ := some [] } := by
  have h := set_cmd_idempotent (freshContext 1)
  exact ⟨h.1, h.2.2.1 rfl⟩

/-- C1: every compute-job submission records a dispatch whose effective
global work-group size is, per axis, the requested global extent divided by
the shader's declared output-tile size, rounded up (ceiling division, here
written as the quotient plus one when the division is not exact). -/
theorem submit_compute_job_effective_wg (s : Context)
    (shader : ShaderSource) (g l : uvec3) (fence : VkFence)
    (args : List BindArg) (hx : 0 < shader.out_tile_size.x)
    (hy : 0 < shader.out_tile_size.y) (hz : 0 < shader.out_tile_size.z) :
    (s.submit_compute_job shader g l fence args).state.allOps =
      s.allOps ++
        [RecordedOp.insert_barrier,
          RecordedOp.dispatch (detail.bind ⟨[]⟩ args).binds
            ⟨spec_ceil g.x shader.out_tile_size.x,
              spec_ceil g.y shader.out_tile_size.y,
              spec_ceil g.z shader.out_tile_size.z⟩ l] := by
  have hopen : s.set_cmd.cmd_.isSome = true := set_cmd_isSome s
  show ((s.set_cmd.record
      [RecordedOp.insert_barrier,
        RecordedOp.dispatch (detail.bind ⟨[]⟩ args).binds
          (effective_global_wg shader g) l]).count_and_maybe_submit
      fence).1.allOps = _
  rw [allOps_count_and_maybe_submit, allOps_record _ _ hopen, allOps_set_cmd]
  simp only [effective_global_wg]
  rw [div_up_eq_spec_ceil _ _ hx, div_up_eq_spec_ceil _ _ hy,
    div_up_eq_spec_ceil _ _ hz]

/-- Witness for C1: requested extent (10, 10, 1) with tile size (4, 4, 1)
dispatches effective extent (3, 3, 1). -/
theorem submit_compute_job_effective_wg_witness :
    ((freshContext 100).submit_compute_job ⟨"conv2d", ⟨4, 4, 1⟩⟩
        ⟨10, 10, 1⟩ ⟨8, 8, 1⟩ none []).state.allOps =
      [RecordedOp.insert_barrier,
        RecordedOp.dispatch [] ⟨3, 3, 1⟩ ⟨8, 8, 1⟩] := by
  have h := submit_compute_job_effective_wg (freshContext 100)
    ⟨"conv2d", ⟨4, 4, 1⟩⟩ ⟨10, 10, 1⟩ ⟨8, 8, 1⟩ none []
    (by decide) (by decide) (by decide)
  exact h.trans (by decide)

/-- C3: after incrementing the submission counter, both `submit_copy` and
`submit_compute_job` submit the batched command buffer to the GPU queue if
and only if the caller supplied a non-null fence or the incremented counter
reached `cmdSubmitFrequency`; otherwise nothing is submitted and the
recorded work stays batched in the still-open command buffer. -/
theorem submit_iff_fence_or_threshold (s : Context)
    (src dst : ResourceKind) (shader : ShaderSource) (g l : uvec3)
    (fence : VkFence) (args : List BindArg) (r : SubmitResult)
    (hr : s.submit_copy src dst fence = some r) :
    (r.submitted = true ↔
        fence.isSome = true ∨
          s.config_.cmdSubmitFrequency ≤ uint32 (s.submit_count_ + 1)) ∧
    (r.submitted = false →
        r.state.submissions = s.submissions ∧
          r.state.cmd_.isSome = true) ∧
    ((s.submit_compute_job shader g l fence args).submitted = true ↔
        fence.isSome = true ∨
          s.config_.cmdSubmitFrequency ≤ uint32 (s.submit_count_ + 1)) ∧
    ((s.submit_compute_job shader g l fence args).submitted = false →
        (s.submit_compute_job shader g l fence args).state.submissions =
            s.submissions ∧
          (s.submit_compute_job shader g l fence
              args).state.cmd_.isSome = true) := by
  obtain ⟨c, hc, rfl⟩ := Option.map_eq_some'.mp hr
  refine ⟨?_, ?_, ?_, ?_⟩
  · show ((s.set_cmd.record
        [RecordedOp.insert_barrier,
          RecordedOp.copy c]).count_and_maybe_submit fence).2 = true ↔ _
    rw [tail_submitted]
    simp
  · intro hfalse
    exact tail_deferred s _ fence hfalse
  · show ((s.set_cmd.record
        [RecordedOp.insert_barrier,
          RecordedOp.dispatch (detail.bind ⟨[]⟩ args).binds
            (effective_global_wg shader g) l]).count_and_maybe_submit
        fence).2 = true ↔ _
    rw [tail_submitted]
    simp
  · intro hfalse
    exact tail_deferred s _ fence hfalse

/-- Witness for C3 at a concrete context with threshold 1 and no fence:
the incremented counter reaches the threshold, so the call submits. -/
theorem submit_iff_fence_or_threshold_witness :
    (((freshContext 1).submit_copy ResourceKind.buffer ResourceKind.buffer
        none).getD ⟨freshContext 1, [], false⟩).submitted = true := by
  have h := submit_iff_fence_or_threshold (freshContext 1)
    ResourceKind.buffer ResourceKind.buffer ⟨"k", ⟨1, 1, 1⟩⟩ ⟨1, 1, 1⟩
    ⟨1, 1, 1⟩ none []
    (((freshContext 1).submit_copy ResourceKind.buffer ResourceKind.buffer
        none).getD ⟨freshContext 1, [], false⟩) (by decide)
  exact h.1.mpr (Or.inr (by decide))

/-- C4: a queue submission resets the submission counter to zero, and a
sequence of `N` fence-less recorded operations from a fresh context
submits exactly `N / threshold` times (once per full threshold-sized
batch), which is deterministic in `N` and the threshold and at most
`ceil(N / threshold)`. -/
theorem submission_count_deterministic (freq N : Nat) (h1 : 0 < freq)
    (h2 : freq < 2 ^ 32) :
    ((freshContext freq).runCopies N).submissions.length = N / freq ∧
    N / freq ≤ spec_ceil N freq ∧
    (∀ (s : Context) (f : VkFence),
      (s.submit_cmd_to_gpu f).submit_count_ = 0) := by
  have h := runCopies_spec N (freshContext freq) h1 h2 h1
  refine ⟨?_, ?_, fun s f => rfl⟩
  · have := h.1
    simpa [freshContext] using this
  · unfold spec_ceil
    exact Nat.le_add_right _ _

/-- Witness for C4: threshold 2 and five fence-less operations yield
exactly `5 / 2 = 2` submissions. -/
theorem submission_count_deterministic_witness :
    ((freshContext 2).runCopies 5).submissions.length = 2 := by
  have h := submission_count_deterministic 2 5 (by decide) (by norm_num)
  exact h.1.trans (by decide)

/-- C6: both `submit_copy` and `submit_compute_job` acquire the recording
mutex `cmd_mutex_` for the duration of recording if and only if the
supplied fence handle is null; with a non-null fence they acquire no lock
(the caller is assumed to hold it). -/
theorem submit_lock_iff_no_fence (s : Context) (src dst : ResourceKind)
    (shader : ShaderSource) (g l : uvec3) (fence : VkFence)
    (args : List BindArg) (r : SubmitResult)
    (hr : s.submit_copy src dst fence = some r) :
    (LockEvent.cmd_mutex ∈ r.locks ↔ fence = none) ∧
    (LockEvent.cmd_mutex ∈
        (s.submit_compute_job shader g l fence args).locks ↔
      fence = none) := by
  obtain ⟨c, hc, rfl⟩ := Option.map_eq_some'.mp hr
  constructor
  · show LockEvent.cmd_mutex ∈
        (if fence.isNone then [LockEvent.cmd_mutex] else []) ↔ fence = none
    cases fence <;> simp
  · show LockEvent.cmd_mutex ∈
        (if fence.isNone then [LockEvent.cmd_mutex] else []) ↔ fence = none
    cases fence <;> simp

/-- Witness for C6: a fence-less copy call acquires the recording mutex. -/
theorem submit_lock_iff_no_fence_witness :
    LockEvent.cmd_mutex ∈
      (((freshContext 5).submit_copy ResourceKind.buffer
          ResourceKind.buffer none).getD
        ⟨freshContext 5, [], false⟩).locks := by
  have h := submit_lock_iff_no_fence (freshContext 5) ResourceKind.buffer
    ResourceKind.buffer ⟨"k", ⟨1, 1, 1⟩⟩ ⟨1, 1, 1⟩ ⟨1, 1, 1⟩ none []
    (((freshContext 5).submit_copy ResourceKind.buffer ResourceKind.buffer
        none).getD ⟨freshContext 5, [], false⟩) (by decide)
  exact h.1.mpr rfl

/-- C7: destroying a `UniformParamsBuffer` or `StorageBuffer` never
directly frees GPU memory: the destructor only appends the buffer handle to
the owning context's deferred-cleanup queue, and the memory is released
only when the queue is later drained (at flush). -/
theorem wrapper_destructor_defers (s : Context) (u : UniformParamsBuffer)
    (b : StorageBuffer) (hu : u.vulkan_buffer_.isValid = true) :
    (u.destructor s).freed_buffers = s.freed_buffers ∧
    (u.destructor s).freed_images = s.freed_images ∧
    (u.destructor s).buffers_to_clear_ =
        s.buffers_to_clear_ ++ [u.vulkan_buffer_] ∧
    (b.destructor s).freed_buffers = s.freed_buffers ∧
    (b.destructor s).buffers_to_clear_ =
        s.buffers_to_clear_ ++ [b.vulkan_buffer_] ∧
    ((u.destructor s).flush).freed_buffers =
        s.freed_buffers ++ (s.buffers_to_clear_ ++ [u.vulkan_buffer_]) := by
  unfold UniformParamsBuffer.destructor
  rw [if_pos hu]
  refine ⟨rfl, rfl, rfl, rfl, rfl, ?_⟩
  unfold Context.flush Context.register_buffer_cleanup
  by_cases h : s.cmd_.isSome
  · simp [h, Context.submit_cmd_to_gpu]
  · simp [h]

/-- Witness for C7: destroying a wrapper holding buffer 7 registers it for
cleanup without freeing it, and the following flush releases it. -/
theorem wrapper_destructor_defers_witness :
    (UniformParamsBuffer.destructor ⟨⟨7⟩⟩
        (freshContext 3)).buffers_to_clear_ = [VulkanBuffer.mk 7] ∧
    (UniformParamsBuffer.destructor ⟨⟨7⟩⟩ (freshContext 3)).freed_buffers =
        [] ∧
    ((UniformParamsBuffer.destructor ⟨⟨7⟩⟩
        (freshContext 3)).flush).freed_buffers = [VulkanBuffer.mk 7] := by
  have h := wrapper_destructor_defers (freshContext 3) ⟨⟨7⟩⟩ ⟨⟨9⟩⟩
    (by decide)
  exact ⟨h.2.2.1.trans (by decide), h.1.trans (by decide),
    h.2.2.2.2.2.trans (by decide)⟩

/-- C10: a moved-from `UniformParamsBuffer` registers nothing on
destruction (its destructor is guarded on still holding a valid buffer), so
destroying every wrapper produced by a chain of `n` moves registers the
underlying buffer for cleanup exactly once; a `StorageBuffer`, which is
neither copyable nor movable, unconditionally registers its buffer exactly
once on destruction. -/
theorem move_chain_registers_once (s : Context) (u : UniformParamsBuffer)
    (n : Nat) (b : StorageBuffer) (hv : u.vulkan_buffer_.isValid = true) :
    (u.moveFrom).1.destructor s = s ∧
    (destroyAll (UniformParamsBuffer.moveChain n u) s).buffers_to_clear_ =
        s.buffers_to_clear_ ++ [u.vulkan_buffer_] ∧
    (b.destructor s).buffers_to_clear_ =
        s.buffers_to_clear_ ++ [b.vulkan_buffer_] := by
  refine ⟨destructor_husk s, ?_, rfl⟩
  rw [moveChain_eq]
  have hsplit : destroyAll (List.replicate n ⟨⟨0⟩⟩ ++ [u]) s =
      u.destructor (destroyAll (List.replicate n ⟨⟨0⟩⟩) s) := by
    simp [destroyAll, List.foldl_append]
  rw [hsplit, destroyAll_husks]
  unfold UniformParamsBuffer.destructor
  rw [if_pos hv]
  rfl

/-- Witness for C10: three moves of a wrapper holding buffer 7, then
destroying all four wrappers, registers buffer 7 exactly once. -/
theorem move_chain_registers_once_witness :
    (destroyAll (UniformParamsBuffer.moveChain 3 ⟨⟨7⟩⟩)
        (freshContext 2)).buffers_to_clear_ = [VulkanBuffer.mk 7] := by
  have h := move_chain_registers_once (freshContext 2) ⟨⟨7⟩⟩ 3 ⟨⟨9⟩⟩
    (by decide)
  exact h.2.1.trans (by decide)

end Vulkan
